import Mathlib

/-!
Shallow embedding of the `nam_tk` document CRUD backend.

The store is modelled as a list of rows of the `documents` table; the
primary-key constraint of the backing database is reflected by using the
`id` field as the lookup key of `session.get`.  SQL `NULL` is modelled by
`Option`, dates by natural numbers counting days, and UUIDs by natural
numbers.  Each FastAPI handler of `app/api/endpoints/main/documents.py`
becomes a pure function from its inputs and the current store to its
response and the resulting store; the generated primary key and the
current clock reading are passed as explicit parameters.
-/

/-- A `documents` row as carried by the mapped instance (`Document` in
`app/core/models.py`).  `organization`, `full_name`, `pini`,
`passport_series`, `registration_address` and `commission_director` are
declared `Mapped[str]`, i.e. NOT NULL in the emitted schema, but the
Python instance holds `None` in them transiently (the create schema
defaults every one of them to `None`), so they are `Option` here and
the NOT NULL constraint is enforced where the database enforces it: at
flush, by `save`.  `work_address`, `examination_date`, the `*_type`
flags, `special_note` and `valid_date` are genuinely nullable;
`birth_date` is `nullable=False` and always supplied by the schemas;
`finish` has default `False`. -/
structure Document where
  id : Nat
  organization : Option String
  full_name : Option String
  pini : Option String
  passport_series : Option String
  birth_date : Nat
  registration_address : Option String
  work_address : Option String
  examination_date : Option Nat
  a_type : Option Bool
  b_type : Option Bool
  c_type : Option Bool
  d_type : Option Bool
  e_type : Option Bool
  tram_type : Option Bool
  trolleybus_type : Option Bool
  hired_type : Option Bool
  special_note : Option String
  valid_date : Option Nat
  commission_director : Option String
  finish : Bool
deriving Repr, DecidableEq

/-- The table contents. -/
abbrev Store := List Document

/-- The validated body of `POST /documents/` (`DocumentCreate` in
`app/schemas/document.py`).  Every field is optional with default `None`
except `birth_date`, which is defaulted by the schema, so after
validation it always carries a value. -/
structure DocumentCreate where
  organization : Option String
  full_name : Option String
  pini : Option String
  passport_series : Option String
  birth_date : Nat
  registration_address : Option String
  commission_director : Option String
deriving Repr, DecidableEq

/-- The raw body of `PATCH /documents/` (`DocumentUpdate` in
`app/schemas/document.py`).  For the optional fields, `none` means the
caller omitted the field, `some none` means the caller sent an explicit
null, and `some (some v)` means the caller sent the value `v`.
`birth_date` is not `Optional` in the schema, so a null is rejected by
validation and only omitted/value remain. -/
structure DocumentUpdate where
  full_name : Option (Option String)
  pini : Option (Option String)
  passport_series : Option (Option String)
  birth_date : Option Nat
  registration_address : Option (Option String)
  work_address : Option (Option String)
  a_type : Option (Option Bool)
  b_type : Option (Option Bool)
  c_type : Option (Option Bool)
  d_type : Option (Option Bool)
  e_type : Option (Option Bool)
  tram_type : Option (Option Bool)
  trolleybus_type : Option (Option Bool)
  hired_type : Option (Option Bool)
  special_note : Option (Option String)
  commission_director : Option (Option String)
  finish : Option (Option Bool)
deriving Repr, DecidableEq

/-- `model_dump(exclude_none=True, exclude_unset=True, exclude_defaults=True)`
keeps a field of the update body iff it was set to a non-null value;
`sent x` is that field's entry in the resulting keyword map. -/
def sent {α : Type} (x : Option (Option α)) : Option α :=
  match x with
  | some (some v) => some v
  | _ => none

/-- Effect of `update(...).values(**kwargs)` on one nullable column:
the column is overwritten when the key is in the map, kept otherwise. -/
def pick {α : Type} (x : Option (Option α)) (old : Option α) : Option α :=
  match x with
  | some (some v) => some v
  | _ => old

/-- Same as `pick` for a non-nullable column. -/
def pickD {α : Type} (x : Option (Option α)) (old : α) : α :=
  match x with
  | some (some v) => v
  | _ => old

/-- The row transformation performed by `update_document`: the filtered
body fields are applied, and the handler always adds
`examination_date=datetime.now()` and
`valid_date=datetime.now() + timedelta(days=365)` to the keyword map. -/
def applyUpdate (b : DocumentUpdate) (now : Nat) (d : Document) : Document :=
  { d with
    full_name := pick b.full_name d.full_name
    pini := pick b.pini d.pini
    passport_series := pick b.passport_series d.passport_series
    birth_date := b.birth_date.getD d.birth_date
    registration_address := pick b.registration_address d.registration_address
    work_address := pick b.work_address d.work_address
    a_type := pick b.a_type d.a_type
    b_type := pick b.b_type d.b_type
    c_type := pick b.c_type d.c_type
    d_type := pick b.d_type d.d_type
    e_type := pick b.e_type d.e_type
    tram_type := pick b.tram_type d.tram_type
    trolleybus_type := pick b.trolleybus_type d.trolleybus_type
    hired_type := pick b.hired_type d.hired_type
    special_note := pick b.special_note d.special_note
    commission_director := pick b.commission_director d.commission_director
    finish := pickD b.finish d.finish
    examination_date := some now
    valid_date := some (now + 365) }

/-- `Base._update`: `UPDATE documents SET ... WHERE id = :id`, committing
immediately.  The first component models the cursor result's row count;
no error is possible, a missing id simply affects zero rows. -/
def update_base (i : Nat) (b : DocumentUpdate) (now : Nat) (store : Store) : Nat × Store :=
  (List.countP (fun d => d.id == i) store,
   List.map (fun d => if d.id == i then applyUpdate b now d else d) store)

/-- The `PATCH /documents/` handler (`update_document`): it builds the
keyword map from the filtered body plus the two server stamps and calls
`_update`, returning the cursor result. -/
def update_document (i : Nat) (b : DocumentUpdate) (now : Nat) (store : Store) : Nat × Store :=
  update_base i b now store

/-- `session.get(Document, id)`: primary-key lookup. -/
def sget (i : Nat) (store : Store) : Option Document :=
  List.find? (fun d => d.id == i) store

/-- SQL equality `Document.pini == value` as used by `exist_pini` and
`get_by_pini`: comparison with `NULL` is never true. -/
def sqlEqOpt (a b : Option String) : Bool :=
  match a, b with
  | some x, some y => x == y
  | _, _ => false

/-- `Document.exist_pini` via `Base.exist`: `EXISTS (SELECT ... WHERE
documents.pini = :pini)`. -/
def exist_pini (p : Option String) (store : Store) : Bool :=
  List.any store (fun d => sqlEqOpt d.pini p)

/-- `Base.get_where` / `scalar_one_or_none`: zero rows give `none`, one
row gives the row, several matching rows raise `MultipleResultsFound`. -/
def get_where (cond : Document → Bool) (store : Store) : Except String (Option Document) :=
  match List.filter cond store with
  | [] => Except.ok none
  | [d] => Except.ok (some d)
  | _ => Except.error "MultipleResultsFound"

/-- `Document.get_by_pini`. -/
def get_by_pini (p : Option String) (store : Store) : Except String (Option Document) :=
  get_where (fun d => sqlEqOpt d.pini p) store

/-- `Document(**document_data.model_dump())` followed by the column
defaults applied at flush time: the generated primary key, `finish =
False`, and `NULL` for all columns absent from the create schema. -/
def mkDocument (b : DocumentCreate) (genId : Nat) : Document :=
  { id := genId
    organization := b.organization
    full_name := b.full_name
    pini := b.pini
    passport_series := b.passport_series
    birth_date := b.birth_date
    registration_address := b.registration_address
    work_address := none
    examination_date := none
    a_type := none
    b_type := none
    c_type := none
    d_type := none
    e_type := none
    tram_type := none
    trolleybus_type := none
    hired_type := none
    special_note := none
    valid_date := none
    commission_director := b.commission_director
    finish := false }

/-- The row satisfies the NOT NULL constraints of the `documents`
table: the six `Mapped[str]` columns carry values (`birth_date` and
`finish` cannot be `None` by construction). -/
def rowInsertable (d : Document) : Bool :=
  d.organization.isSome && d.full_name.isSome && d.pini.isSome &&
    d.passport_series.isSome && d.registration_address.isSome &&
    d.commission_director.isSome

/-- `Base.save`: `session.add` then commit (flush) and refresh.  An
INSERT carrying `NULL` in a NOT NULL column raises `IntegrityError` at
flush and persists nothing; otherwise the row is appended. -/
def save (d : Document) (store : Store) : Except String Store :=
  if rowInsertable d then Except.ok (store ++ [d])
  else Except.error "IntegrityError"

/-- The `POST /documents/` handler (`create_document`): if no stored row
has the request's `pini` (by SQL equality), the new document is saved
and returned — the save raising `IntegrityError` when the body left a
NOT NULL column at `None`; otherwise the existing row is fetched by
`pini` and returned with the store unchanged. -/
def create_document (b : DocumentCreate) (genId : Nat) (store : Store) :
    Except String (Option Document × Store) :=
  if exist_pini b.pini store then
    match get_by_pini b.pini store with
    | Except.ok r => Except.ok (r, store)
    | Except.error e => Except.error e
  else
    match save (mkDocument b genId) store with
    | Except.ok s2 => Except.ok (some (mkDocument b genId), s2)
    | Except.error e => Except.error e

/-- `Base._delete`: `session.get` by primary key; a missing row returns
`False` and leaves the store unchanged, a present row is deleted and
`True` returned. -/
def delete_base (i : Nat) (store : Store) : Bool × Store :=
  match sget i store with
  | none => (false, store)
  | some _ => (true, List.filter (fun d => !(d.id == i)) store)

/-- What an HTTP caller of the document endpoints receives. -/
inductive ApiResponse where
  | detail (msg : String)
  | notFound
deriving Repr, DecidableEq

/-- The `DELETE /documents/` handler (`delete_document`): it performs a
`get` whose result is discarded, then `_delete` whose boolean result is
also discarded, and returns `{"detail": "document deleted"}`
unconditionally. -/
def delete_document (i : Nat) (store : Store) : ApiResponse × Store :=
  let _ := sget i store
  let r := delete_base i store
  (ApiResponse.detail "document deleted", r.2)

/-- `Base.get_all`: `SELECT * FROM documents`. -/
def get_all (store : Store) : List Document :=
  store

/-- Response shape of `GET /documents/`: one (possibly missing) row for
the id branch, a list for the search and get-all branches. -/
inductive GetResponse where
  | one (d : Option Document)
  | many (ds : List Document)
deriving Repr, DecidableEq

/-- Argument of `session.delete`: either a mapped row instance or, as
`Base.delete_all` passes it, the entity class itself. -/
inductive SessionDeleteArg where
  | row (d : Document)
  | entityClass
deriving Repr, DecidableEq

/-- `session.delete`: deleting a row removes it (by primary key);
passing the class raises `UnmappedInstanceError` and removes nothing. -/
def sessionDelete (a : SessionDeleteArg) (s : Store) : Except String Store :=
  match a with
  | SessionDeleteArg.row d => Except.ok (List.filter (fun x => !(x.id == d.id)) s)
  | SessionDeleteArg.entityClass => Except.error "UnmappedInstanceError"

/-- `Base.delete_all`: `await session.delete(self.__class__)`, then
commit and return `True` — the first step already fails. -/
def delete_all (store : Store) : Except String (Bool × Store) :=
  match sessionDelete SessionDeleteArg.entityClass store with
  | Except.ok s2 => Except.ok (true, s2)
  | Except.error e => Except.error e

/-- Character-wise lower-casing, modelling the `lower()` the database
applies to both sides of an `ILIKE` comparison. -/
def lowerStr (s : String) : List Char :=
  s.data.map Char.toLower

/-- SQL `LIKE` pattern matching over lowercased character lists, with
`%` (any run), `_` (any single character) and the default backslash
escape, as Postgres applies it to the `ILIKE` patterns built by
`search_by_query`.  A `%` consumes an arbitrary run, i.e. the rest of
the pattern must match some suffix of the string. -/
def likeMatches (p : List Char) (s : List Char) : Bool :=
  match p with
  | [] => s.isEmpty
  | c :: p =>
    if c == '%' then
      (s.tails).any (fun t => likeMatches p t)
    else
      match s with
      | [] => false
      | c3 :: s2 =>
        if c == '_' then likeMatches p s2
        else if c == '\\' then
          match p with
          | [] => false
          | c2 :: p2 => c2 == c3 && likeMatches p2 s2
        else c == c3 && likeMatches p s2

/-- One `column.ilike(f"%{query}%")` filter: a `NULL` column never
matches, otherwise both sides are folded to lower case and the pattern
`'%' + query + '%'` is matched. -/
def ilikeQ (q : String) (field : Option String) : Bool :=
  match field with
  | none => false
  | some s => likeMatches ('%' :: (lowerStr q ++ ['%'])) (lowerStr s)

/-- The row predicate of `Document.search_by_query`: the three `ilike`
filters are passed to `search_with_multi_filters`, which combines them
with `or_`. -/
def docMatches (q : String) (d : Document) : Bool :=
  ilikeQ q d.full_name || ilikeQ q d.pini || ilikeQ q d.passport_series

/-- `Document.search_by_query` via `Base.search_with_multi_filters`. -/
def search_by_query (store : Store) (q : String) : List Document :=
  List.filter (docMatches q) store

/-- The `GET /documents/` handler (`get_documents`): a supplied `id` (a
UUID object, always truthy) selects the primary-key lookup; otherwise a
truthy (non-empty) `query` selects the text search; otherwise all rows
are returned. -/
def get_documents (i : Option Nat) (q : Option String) (store : Store) : GetResponse :=
  match i with
  | some iv => GetResponse.one (sget iv store)
  | none =>
    match q with
    | some qs => if qs.isEmpty then GetResponse.many (get_all store)
                 else GetResponse.many (search_by_query store qs)
    | none => GetResponse.many (get_all store)

/-- `q` occurs at the start of `s`. -/
def matchesAtStart (q : List Char) : List Char → Bool
  | [] => q.isEmpty
  | b :: bs =>
    match q with
    | [] => true
    | a :: as => a == b && matchesAtStart as bs

/-- `q` occurs contiguously somewhere in `s`. -/
def containsSub (q : List Char) : List Char → Bool
  | [] => q.isEmpty
  | b :: rest => matchesAtStart q (b :: rest) || containsSub q rest

/-- Modelled from the spec: "case-insensitively contains `query` as a
substring" for one searchable column, with a `NULL` column containing
nothing. -/
def specContains (q : String) (field : Option String) : Bool :=
  match field with
  | none => false
  | some s => containsSub (lowerStr q) (lowerStr s)

/-- Modelled from the spec: a document matches a text search iff
`full_name`, `pini`, or `passport_series` case-insensitively contains
the query as a substring (OR of the three). -/
def specMatches (q : String) (d : Document) : Bool :=
  specContains q d.full_name || specContains q d.pini || specContains q d.passport_series

/-- The query contains no `LIKE` metacharacter: no `%`, `_`, or the
default escape backslash. -/
def noWild (q : List Char) : Bool :=
  q.all (fun c => !(c == '%') && !(c == '_') && !(c == '\\'))

/-- Names of the columns of the `documents` table, used to state
field-by-field frame properties of the update handler. -/
inductive DField where
  | id
  | organization
  | full_name
  | pini
  | passport_series
  | birth_date
  | registration_address
  | work_address
  | examination_date
  | a_type
  | b_type
  | c_type
  | d_type
  | e_type
  | tram_type
  | trolleybus_type
  | hired_type
  | special_note
  | valid_date
  | commission_director
  | finish
deriving Repr, DecidableEq

/-- A column value, uniformly encoded; `none` is SQL `NULL`. -/
inductive FieldVal where
  | str (s : String)
  | flag (b : Bool)
  | num (n : Nat)
deriving Repr, DecidableEq

/-- The stored value of a column of a document row. -/
def getStored (f : DField) (d : Document) : Option FieldVal :=
  match f with
  | DField.id => some (FieldVal.num d.id)
  | DField.organization => d.organization.map FieldVal.str
  | DField.full_name => d.full_name.map FieldVal.str
  | DField.pini => d.pini.map FieldVal.str
  | DField.passport_series => d.passport_series.map FieldVal.str
  | DField.birth_date => some (FieldVal.num d.birth_date)
  | DField.registration_address => d.registration_address.map FieldVal.str
  | DField.work_address => d.work_address.map FieldVal.str
  | DField.examination_date => d.examination_date.map FieldVal.num
  | DField.a_type => d.a_type.map FieldVal.flag
  | DField.b_type => d.b_type.map FieldVal.flag
  | DField.c_type => d.c_type.map FieldVal.flag
  | DField.d_type => d.d_type.map FieldVal.flag
  | DField.e_type => d.e_type.map FieldVal.flag
  | DField.tram_type => d.tram_type.map FieldVal.flag
  | DField.trolleybus_type => d.trolleybus_type.map FieldVal.flag
  | DField.hired_type => d.hired_type.map FieldVal.flag
  | DField.special_note => d.special_note.map FieldVal.str
  | DField.valid_date => d.valid_date.map FieldVal.num
  | DField.commission_director => d.commission_director.map FieldVal.str
  | DField.finish => some (FieldVal.flag d.finish)

/-- The entry a column receives in the keyword map that
`update_document` builds from the request body with
`exclude_none/exclude_unset/exclude_defaults`; `none` means the column
is absent from the map.  `id`, `organization`, `examination_date` and
`valid_date` are not part of the update schema, so the body never
contributes them. -/
def getSent (f : DField) (b : DocumentUpdate) : Option FieldVal :=
  match f with
  | DField.id => none
  | DField.organization => none
  | DField.full_name => (sent b.full_name).map FieldVal.str
  | DField.pini => (sent b.pini).map FieldVal.str
  | DField.passport_series => (sent b.passport_series).map FieldVal.str
  | DField.birth_date => b.birth_date.map FieldVal.num
  | DField.registration_address => (sent b.registration_address).map FieldVal.str
  | DField.work_address => (sent b.work_address).map FieldVal.str
  | DField.examination_date => none
  | DField.a_type => (sent b.a_type).map FieldVal.flag
  | DField.b_type => (sent b.b_type).map FieldVal.flag
  | DField.c_type => (sent b.c_type).map FieldVal.flag
  | DField.d_type => (sent b.d_type).map FieldVal.flag
  | DField.e_type => (sent b.e_type).map FieldVal.flag
  | DField.tram_type => (sent b.tram_type).map FieldVal.flag
  | DField.trolleybus_type => (sent b.trolleybus_type).map FieldVal.flag
  | DField.hired_type => (sent b.hired_type).map FieldVal.flag
  | DField.special_note => (sent b.special_note).map FieldVal.str
  | DField.valid_date => none
  | DField.commission_director => (sent b.commission_director).map FieldVal.str
  | DField.finish => (sent b.finish).map FieldVal.flag

/-- The caller sent an explicit null for this column in the raw update
body (possible only for the optional columns of the update schema). -/
def nullSent (f : DField) (b : DocumentUpdate) : Bool :=
  match f with
  | DField.full_name => b.full_name == some none
  | DField.pini => b.pini == some none
  | DField.passport_series => b.passport_series == some none
  | DField.registration_address => b.registration_address == some none
  | DField.work_address => b.work_address == some none
  | DField.a_type => b.a_type == some none
  | DField.b_type => b.b_type == some none
  | DField.c_type => b.c_type == some none
  | DField.d_type => b.d_type == some none
  | DField.e_type => b.e_type == some none
  | DField.tram_type => b.tram_type == some none
  | DField.trolleybus_type => b.trolleybus_type == some none
  | DField.hired_type => b.hired_type == some none
  | DField.special_note => b.special_note == some none
  | DField.commission_director => b.commission_director == some none
  | DField.finish => b.finish == some none
  | _ => false

/-- A sample stored row used by concrete witnesses. -/
def baseDoc : Document :=
  { id := 1
    organization := some "My Organization"
    full_name := some "John Doe"
    pini := some "12345678901234"
    passport_series := some "AA123456"
    birth_date := 100
    registration_address := some "123 Main Street"
    work_address := some "456 Work Blvd"
    examination_date := none
    a_type := none
    b_type := none
    c_type := none
    d_type := none
    e_type := none
    tram_type := none
    trolleybus_type := none
    hired_type := none
    special_note := none
    valid_date := none
    commission_director := some "Director Name"
    finish := false }

/-- An update body with every field omitted. -/
def emptyUpd : DocumentUpdate :=
  { full_name := none, pini := none, passport_series := none, birth_date := none
    registration_address := none, work_address := none
    a_type := none, b_type := none, c_type := none, d_type := none, e_type := none
    tram_type := none, trolleybus_type := none, hired_type := none
    special_note := none, commission_director := none, finish := none }

/-- An update body sending an explicit null for `work_address` only. -/
def nullUpd : DocumentUpdate :=
  { emptyUpd with work_address := some none }

/-- A create body whose `pini` equals `baseDoc`'s. -/
def bodyA : DocumentCreate :=
  { organization := none, full_name := some "John Doe", pini := some "12345678901234"
    passport_series := none, birth_date := 100, registration_address := none
    commission_director := none }

/-- A create body with a null `pini`. -/
def bodyNull : DocumentCreate :=
  { organization := none, full_name := none, pini := none
    passport_series := none, birth_date := 50, registration_address := none
    commission_director := none }

/-- A create body supplying every NOT NULL column, with a `pini` fresh
with respect to `baseDoc`. -/
def bodyFull : DocumentCreate :=
  { organization := some "My Organization", full_name := some "Jane Doe"
    pini := some "99999999999999", passport_series := some "BB654321"
    birth_date := 120, registration_address := some "9 Side Street"
    commission_director := some "Director Name" }

/-- A stored row whose `full_name` is matched by the wildcard query
`"a%b"` without containing it as a substring. -/
def docWild : Document :=
  { baseDoc with id := 4, full_name := some "axb", pini := none, passport_series := none }

/-- A second stored row sharing `baseDoc`'s `pini`. -/
def docDup : Document :=
  { baseDoc with id := 2 }

/-- Comparing any column value with SQL `NULL` is never true. -/
theorem sqlEqOpt_none (a : Option String) : sqlEqOpt a none = false := by
  cases a <;> rfl

/-- A column absent from the keyword map is not overwritten. -/
theorem pick_of_sent_none {α : Type} {x : Option (Option α)} (h : sent x = none)
    (old : Option α) : pick x old = old := by
  cases x with
  | none => rfl
  | some y =>
    cases y with
    | none => rfl
    | some v => simp [sent] at h

/-- `pickD` version of `pick_of_sent_none`. -/
theorem pickD_of_sent_none {α : Type} {x : Option (Option α)} (h : sent x = none)
    (old : α) : pickD x old = old := by
  cases x with
  | none => rfl
  | some y =>
    cases y with
    | none => rfl
    | some v => simp [sent] at h

/-- `pick` never turns a non-null column value into `NULL`. -/
theorem pick_map_ne_none {α β : Type} (g : α → β) {x : Option (Option α)}
    {old : Option α} (h : old.map g ≠ none) : (pick x old).map g ≠ none := by
  cases x with
  | none => exact h
  | some y =>
    cases y with
    | none => exact h
    | some v => simp [pick]

/-- A pattern starting with `%` delegates to the suffixes of the
string. -/
theorem likeMatches_pct_def (p : List Char) (s : List Char) :
    likeMatches ('%' :: p) s = (s.tails).any (fun t => likeMatches p t) := by
  rw [likeMatches.eq_def]
  rfl

/-- Unfolding a leading `%`: the rest of the pattern must match some
suffix of the string. -/
theorem likeMatches_pct (p : List Char) (s : List Char) :
    likeMatches ('%' :: p) s = true ↔
      ∃ s1 s2, s = s1 ++ s2 ∧ likeMatches p s2 = true := by
  rw [likeMatches_pct_def, List.any_eq_true]
  constructor
  · rintro ⟨t, ht, hm⟩
    rw [List.mem_tails] at ht
    obtain ⟨s1, hs⟩ := ht
    exact ⟨s1, t, hs.symm, hm⟩
  · rintro ⟨s1, s2, hs, hm⟩
    exact ⟨s2, (List.mem_tails _ _).2 ⟨s1, hs.symm⟩, hm⟩

/-- `matchesAtStart` decides the "starts with" relation. -/
theorem matchesAtStart_iff (q s : List Char) :
    matchesAtStart q s = true ↔ ∃ r, s = q ++ r := by
  induction s generalizing q with
  | nil =>
    cases q with
    | nil => simp [matchesAtStart]
    | cons a as => simp [matchesAtStart]
  | cons b bs ih =>
    cases q with
    | nil => simp [matchesAtStart]
    | cons a as =>
      simp only [matchesAtStart, Bool.and_eq_true, beq_iff_eq, ih]
      constructor
      · rintro ⟨hab, r, hr⟩
        exact ⟨r, by simp [hab, hr]⟩
      · rintro ⟨r, hr⟩
        simp only [List.cons_append, List.cons.injEq] at hr
        exact ⟨hr.1.symm, r, hr.2⟩

/-- `containsSub` decides the "occurs as a contiguous substring"
relation. -/
theorem containsSub_iff (q s : List Char) :
    containsSub q s = true ↔ ∃ s1 s2, s = s1 ++ q ++ s2 := by
  induction s with
  | nil =>
    cases q with
    | nil => simp [containsSub]
    | cons a as => simp [containsSub]
  | cons b bs ih =>
    simp only [containsSub, Bool.or_eq_true, matchesAtStart_iff, ih]
    constructor
    · intro h
      rcases h with ⟨r, hr⟩ | ⟨s1, s2, hs⟩
      · exact ⟨[], r, by simp [hr]⟩
      · exact ⟨b :: s1, s2, by simp [hs]⟩
    · rintro ⟨s1, s2, hs⟩
      cases s1 with
      | nil =>
        left
        exact ⟨s2, by simpa using hs⟩
      | cons c s1t =>
        right
        simp only [List.cons_append, List.cons.injEq] at hs
        exact ⟨s1t, s2, hs.2⟩

/-- The empty pattern matches only the empty string. -/
theorem likeMatches_nil (s : List Char) : likeMatches [] s = s.isEmpty := by
  rw [likeMatches.eq_def]

/-- A pattern headed by a literal character rejects the empty string. -/
theorem likeMatches_lit_nil (c : Char) (p : List Char) (h1 : (c == '%') = false) :
    likeMatches (c :: p) [] = false := by
  rw [likeMatches.eq_def]
  simp [h1]

/-- A pattern headed by a literal character consumes exactly that
character. -/
theorem likeMatches_lit_cons (c : Char) (p : List Char) (c3 : Char) (s2 : List Char)
    (h1 : (c == '%') = false) (h2 : (c == '_') = false) (h3 : (c == '\\') = false) :
    likeMatches (c :: p) (c3 :: s2) = (c == c3 && likeMatches p s2) := by
  rw [likeMatches.eq_def]
  simp [h1, h2, h3]

/-- Splitting `noWild` on a cons. -/
theorem noWild_cons {c : Char} {q : List Char} (h : noWild (c :: q) = true) :
    (c == '%') = false ∧ (c == '_') = false ∧ (c == '\\') = false ∧ noWild q = true := by
  simp only [noWild, List.all_cons, Bool.and_eq_true, Bool.not_eq_true'] at h
  obtain ⟨⟨⟨x, y⟩, z⟩, w⟩ := h
  exact ⟨x, y, z, w⟩

/-- A wildcard-free pattern followed by `%` matches exactly the strings
that start with it. -/
theorem likeMatches_lit (q : List Char) :
    noWild q = true → ∀ s, (likeMatches (q ++ ['%']) s = true ↔ ∃ r, s = q ++ r) := by
  induction q with
  | nil =>
    intro _ s
    constructor
    · intro _
      exact ⟨s, rfl⟩
    · intro _
      show likeMatches ('%' :: []) s = true
      rw [likeMatches_pct]
      exact ⟨s, [], by simp, by simp [likeMatches_nil]⟩
  | cons c q ih =>
    intro hq s
    obtain ⟨h1, h2, h3, hq2⟩ := noWild_cons hq
    cases s with
    | nil =>
      simp only [List.cons_append]
      rw [likeMatches_lit_nil c _ h1]
      simp
    | cons c3 s2 =>
      simp only [List.cons_append]
      rw [likeMatches_lit_cons c _ c3 s2 h1 h2 h3]
      rw [Bool.and_eq_true, beq_iff_eq]
      constructor
      · rintro ⟨hc, hrec⟩
        obtain ⟨r, hr⟩ := (ih hq2 s2).1 hrec
        exact ⟨r, by simp [hc, hr]⟩
      · rintro ⟨r, hr⟩
        simp only [List.cons_append, List.cons.injEq] at hr
        exact ⟨hr.1.symm, (ih hq2 s2).2 ⟨r, hr.2⟩⟩

/-- For a wildcard-free query, the pattern `'%' + q + '%'` matches
exactly the strings containing `q` as a contiguous substring. -/
theorem like_eq_containsSub (q s : List Char) (hq : noWild q = true) :
    likeMatches ('%' :: (q ++ ['%'])) s = containsSub q s := by
  rw [Bool.eq_iff_iff, likeMatches_pct, containsSub_iff]
  constructor
  · rintro ⟨s1, s2, rfl, hm⟩
    obtain ⟨r, rfl⟩ := (likeMatches_lit q hq s2).1 hm
    exact ⟨s1, r, by rw [List.append_assoc]⟩
  · rintro ⟨s1, s2, hs⟩
    exact ⟨s1, q ++ s2, by rw [hs, List.append_assoc],
      (likeMatches_lit q hq (q ++ s2)).2 ⟨s2, rfl⟩⟩

/-- Mapping a function over a list pointwise fixed by it. -/
theorem map_id_of_mem_eq {α : Type} (l : List α) (f : α → α) (h : ∀ a ∈ l, f a = a) :
    l.map f = l := by
  induction l with
  | nil => rfl
  | cons x xs ih =>
    simp only [List.map_cons, h x (List.mem_cons_self x xs),
      ih (fun a ha => h a (List.mem_cons_of_mem x ha))]

/-- C1 (amended): a create request whose `pini` is provided and present
in exactly one stored document returns that document's data and leaves
the store unchanged; a create request whose `pini` matches no stored
document and whose row satisfies the table's NOT NULL constraints
persists the new document and returns it with the generated
identifier, while a fresh-`pini` body leaving a NOT NULL column at
`None` raises `IntegrityError` and persists nothing. -/
theorem c1_create_idempotent_by_pini (b : DocumentCreate) (gid : Nat) (store : Store)
    (hp : b.pini.isSome = true) :
    (∀ d0, List.filter (fun d => sqlEqOpt d.pini b.pini) store = [d0] →
        create_document b gid store = Except.ok (some d0, store)) ∧
    (List.filter (fun d => sqlEqOpt d.pini b.pini) store = [] →
        rowInsertable (mkDocument b gid) = true →
        create_document b gid store =
          Except.ok (some (mkDocument b gid), store ++ [mkDocument b gid]) ∧
        (mkDocument b gid).id = gid) ∧
    (List.filter (fun d => sqlEqOpt d.pini b.pini) store = [] →
        rowInsertable (mkDocument b gid) = false →
        create_document b gid store = Except.error "IntegrityError") := by
  have hexOfNil : List.filter (fun d => sqlEqOpt d.pini b.pini) store = [] →
      exist_pini b.pini store = false := by
    intro hfil
    unfold exist_pini
    rw [List.any_eq_false]
    intro d hd
    have := List.filter_eq_nil_iff.1 hfil d hd
    simpa using this
  refine ⟨?_, ?_, ?_⟩
  · intro d0 hfil
    have hm : d0 ∈ List.filter (fun d => sqlEqOpt d.pini b.pini) store := by
      rw [hfil]
      exact List.mem_singleton.2 rfl
    rw [List.mem_filter] at hm
    have hex : exist_pini b.pini store = true := by
      unfold exist_pini
      rw [List.any_eq_true]
      exact ⟨d0, hm.1, hm.2⟩
    unfold create_document get_by_pini get_where
    rw [hex, hfil]
    rfl
  · intro hfil hins
    refine ⟨?_, rfl⟩
    unfold create_document save
    rw [hexOfNil hfil, hins]
    rfl
  · intro hfil hins
    unfold create_document save
    rw [hexOfNil hfil, hins]
    rfl

/-- C1 witness: the single-match branch and the successful insert
branch of `c1_create_idempotent_by_pini` at concrete stores. -/
theorem c1_witness :
    bodyA.pini.isSome = true ∧
    create_document bodyA 7 [baseDoc] = Except.ok (some baseDoc, [baseDoc]) ∧
    create_document bodyFull 7 [baseDoc] =
      Except.ok (some (mkDocument bodyFull 7), [baseDoc] ++ [mkDocument bodyFull 7]) :=
  ⟨by decide,
   (c1_create_idempotent_by_pini bodyA 7 [baseDoc] (by decide)).1 baseDoc (by decide),
   ((c1_create_idempotent_by_pini bodyFull 7 [baseDoc] (by decide)).2.1
     (by decide) (by decide)).1⟩

/-- C1 counterexample: with two stored rows sharing the request's
`pini` (reachable, since the update handler can set `pini` freely), the
create operation raises `MultipleResultsFound` instead of returning the
existing document's data. -/
theorem c1_counterexample :
    create_document bodyA 9 [baseDoc, docDup] = Except.error "MultipleResultsFound" := by
  rfl

/-- C2: every row carrying the updated id in the post-state of the
update handler has `examination_date` stamped with the update time and
`valid_date` stamped with the update time plus 365 days, whatever the
body contained. -/
theorem c2_update_stamps (i : Nat) (b : DocumentUpdate) (now : Nat) (store : Store) :
    ∀ d ∈ (update_document i b now store).2, d.id = i →
      d.examination_date = some now ∧ d.valid_date = some (now + 365) := by
  intro d hd hid
  unfold update_document update_base at hd
  simp only [List.mem_map] at hd
  obtain ⟨d0, hd0, hEq⟩ := hd
  by_cases h : (d0.id == i) = true
  · rw [if_pos h] at hEq
    rw [← hEq]
    exact ⟨rfl, rfl⟩
  · rw [if_neg h] at hEq
    rw [← hEq] at hid
    exact absurd (by simp [hid]) h

/-- C2 witness: `c2_update_stamps` at a concrete store and clock. -/
theorem c2_witness :
    (applyUpdate emptyUpd 200 baseDoc).examination_date = some 200 ∧
    (applyUpdate emptyUpd 200 baseDoc).valid_date = some (200 + 365) :=
  c2_update_stamps 1 emptyUpd 200 [baseDoc] (applyUpdate emptyUpd 200 baseDoc)
    (by decide) (by decide)

/-- C3: any column other than the server-stamped `examination_date` and
`valid_date` that is absent from the filtered update map keeps its
stored value under the update's row transformation. -/
theorem c3_update_frame (f : DField) (b : DocumentUpdate) (now : Nat) (d : Document)
    (h1 : f ≠ DField.examination_date) (h2 : f ≠ DField.valid_date)
    (h : getSent f b = none) :
    getStored f (applyUpdate b now d) = getStored f d := by
  cases f <;>
    first
    | rfl
    | exact absurd rfl h1
    | exact absurd rfl h2
    | (simp only [getSent, Option.map_eq_none'] at h
       simp only [getStored, applyUpdate]
       rw [pick_of_sent_none h]
       done)
    | (simp only [getSent, Option.map_eq_none'] at h
       simp only [getStored, applyUpdate]
       rw [pickD_of_sent_none h]
       done)
    | (simp only [getSent, Option.map_eq_none'] at h
       simp only [getStored, applyUpdate, h, Option.getD_none]
       done)

/-- C3 witness: an update body omitting `work_address` leaves a stored
`work_address` untouched. -/
theorem c3_witness :
    getSent DField.work_address emptyUpd = none ∧
    getStored DField.work_address (applyUpdate emptyUpd 3 baseDoc) =
      getStored DField.work_address baseDoc :=
  ⟨rfl, c3_update_frame DField.work_address emptyUpd 3 baseDoc (by decide) (by decide) rfl⟩

/-- C4 (amended): for every stored set of documents and every query
string free of `LIKE` metacharacters (`%`, `_`, backslash), the text
search returns exactly the documents in which `full_name`, `pini`, or
`passport_series` case-insensitively contains the query as a substring,
the three predicates being combined with OR. -/
theorem c4_search_exact_substring (store : Store) (q : String)
    (hq : noWild (lowerStr q) = true) :
    search_by_query store q = List.filter (specMatches q) store := by
  unfold search_by_query
  apply List.filter_congr
  intro d _
  have e : ∀ f : Option String, ilikeQ q f = specContains q f := by
    intro f
    cases f with
    | none => rfl
    | some s =>
      unfold ilikeQ specContains
      exact like_eq_containsSub _ _ hq
  unfold docMatches specMatches
  rw [e, e, e]

/-- C4 witness: `c4_search_exact_substring` on a concrete store and a
wildcard-free query. -/
theorem c4_witness :
    noWild (lowerStr "Doe") = true ∧
    search_by_query [baseDoc] "Doe" = List.filter (specMatches "Doe") [baseDoc] ∧
    search_by_query [baseDoc] "Doe" = [baseDoc] :=
  ⟨by decide, c4_search_exact_substring [baseDoc] "Doe" (by decide), by decide⟩

/-- C4 counterexample: the query `"a%b"` matches the stored
`full_name` `"axb"` (the `%` acts as a `LIKE` wildcard) although
`"a%b"` is not a substring of `"axb"`, so the search does not return
exactly the substring matches for every query string. -/
theorem c4_counterexample :
    search_by_query [docWild] "a%b" = [docWild] ∧ specMatches "a%b" docWild = false := by
  decide

/-- C5 (amended): the delete handler answers with the same success
acknowledgement whether or not the row exists; the underlying `_delete`
primitive returns `False` and leaves the store unchanged for a missing
id; and after the handler runs, a get-by-id for the deleted identifier
finds nothing. -/
theorem c5_delete_reports (i : Nat) (store : Store) :
    ((delete_document i store).1 = ApiResponse.detail "document deleted") ∧
    (sget i store = none → delete_base i store = (false, store)) ∧
    (sget i ((delete_document i store).2) = none) := by
  refine ⟨rfl, ?_, ?_⟩
  · intro h
    unfold delete_base
    rw [h]
  · show sget i ((delete_base i store)).2 = none
    unfold delete_base
    cases h : sget i store with
    | none => exact h
    | some d =>
      show sget i (List.filter (fun d => !(d.id == i)) store) = none
      unfold sget
      rw [List.find?_eq_none]
      intro x hx
      rw [List.mem_filter] at hx
      simpa using hx.2

/-- C5 counterexample: deleting an id with no corresponding row still
returns the success acknowledgement, not a not-found outcome. -/
theorem c5_counterexample :
    (delete_document 5 ([] : Store)).1 = ApiResponse.detail "document deleted" ∧
    (delete_document 5 ([] : Store)).1 ≠ ApiResponse.notFound := by
  decide

/-- C5 witness: the missing-id branch of `c5_delete_reports` at a
concrete store. -/
theorem c5_witness :
    sget 5 [baseDoc] = none ∧ delete_base 5 [baseDoc] = (false, [baseDoc]) :=
  ⟨by decide, (c5_delete_reports 5 [baseDoc]).2.1 (by decide)⟩

/-- C6: updating an identifier with no corresponding row returns the
success-shaped cursor result with zero affected rows and leaves every
stored document unmodified. -/
theorem c6_update_missing_id (i : Nat) (b : DocumentUpdate) (now : Nat) (store : Store)
    (h : ∀ d ∈ store, d.id ≠ i) :
    update_document i b now store = (0, store) := by
  unfold update_document update_base
  rw [Prod.mk.injEq]
  constructor
  · rw [List.countP_eq_zero]
    intro d hd
    simpa using h d hd
  · apply map_id_of_mem_eq
    intro d hd
    rw [if_neg]
    simp [h d hd]

/-- C6 witness: `c6_update_missing_id` at a concrete store. -/
theorem c6_witness : update_document 99 emptyUpd 7 [baseDoc] = (0, [baseDoc]) :=
  c6_update_missing_id 99 emptyUpd 7 [baseDoc] (by decide)

/-- C7: `delete_all` raises `UnmappedInstanceError` on every store,
because it passes the entity class instead of a row instance to
`session.delete`; it never erases the rows nor returns `True`. -/
theorem c7_delete_all_raises (store : Store) :
    delete_all store = Except.error "UnmappedInstanceError" := rfl

/-- C8: when both `id` and `query` are supplied, the GET handler
performs the get-by-id lookup and ignores `query`; and with no `id`, a
non-empty `query` selects the text search rather than get-all. -/
theorem c8_get_documents_precedence (i : Nat) (q : Option String) (store : Store) :
    get_documents (some i) q store = GetResponse.one (sget i store) ∧
    get_documents (some i) q store = get_documents (some i) none store ∧
    (∀ qs : String, qs.isEmpty = false →
      get_documents none (some qs) store = GetResponse.many (search_by_query store qs)) := by
  refine ⟨rfl, rfl, ?_⟩
  intro qs hqs
  show (if qs.isEmpty = true then GetResponse.many (get_all store)
        else GetResponse.many (search_by_query store qs)) =
      GetResponse.many (search_by_query store qs)
  rw [hqs]
  rfl

/-- C8 witness: `c8_get_documents_precedence` at a concrete store with
both parameters supplied. -/
theorem c8_witness :
    get_documents (some 1) (some "Doe") [baseDoc] = GetResponse.one (sget 1 [baseDoc]) ∧
    get_documents none (some "Doe") [baseDoc] =
      GetResponse.many (search_by_query [baseDoc] "Doe") :=
  ⟨(c8_get_documents_precedence 1 (some "Doe") [baseDoc]).1,
   (c8_get_documents_precedence 1 (some "Doe") [baseDoc]).2.2 "Doe" (by decide)⟩

/-- C9: a field sent as an explicit null in the update body is treated
exactly like an omitted field (the stored value is unchanged), and the
update's row transformation never turns a non-null stored column into
SQL `NULL`. -/
theorem c9_null_ignored_never_clears (f : DField) (b : DocumentUpdate) (now : Nat)
    (d : Document) :
    (nullSent f b = true → getStored f (applyUpdate b now d) = getStored f d) ∧
    (getStored f d ≠ none → getStored f (applyUpdate b now d) ≠ none) := by
  constructor
  · intro h
    cases f <;>
      first
      | exact absurd h Bool.false_ne_true
      | (simp only [nullSent] at h
         rw [beq_iff_eq] at h
         simp only [getStored, applyUpdate, h, pick, pickD]
         done)
  · intro hne
    cases f <;>
      first
      | exact hne
      | (simp only [getStored, applyUpdate]
         exact pick_map_ne_none _ hne)
      | (simp only [getStored, applyUpdate]
         simp
         done)

/-- C9 witness: an explicit null for `work_address` leaves the stored
value unchanged and non-null. -/
theorem c9_witness :
    nullSent DField.work_address nullUpd = true ∧
    getStored DField.work_address (applyUpdate nullUpd 4 baseDoc) =
      getStored DField.work_address baseDoc ∧
    getStored DField.work_address (applyUpdate nullUpd 4 baseDoc) ≠ none :=
  ⟨by decide,
   (c9_null_ignored_never_clears DField.work_address nullUpd 4 baseDoc).1 (by decide),
   (c9_null_ignored_never_clears DField.work_address nullUpd 4 baseDoc).2 (by decide)⟩

/-- C10 (amended): for a create request with a null `pini` the
duplicate check indeed never fires — the SQL equality against `NULL`
matches nothing, so the natural-key deduplication applies only to
non-null `pini` values — but the insert then carries `NULL` into the
NOT NULL `pini` column and raises `IntegrityError` at flush: no row is
persisted. -/
theorem c10_null_pini_rejected (b : DocumentCreate) (gid : Nat) (store : Store)
    (h : b.pini = none) :
    exist_pini b.pini store = false ∧
    create_document b gid store = Except.error "IntegrityError" := by
  have hex : exist_pini b.pini store = false := by
    rw [h]
    unfold exist_pini
    rw [List.any_eq_false]
    intro d hd
    simp [sqlEqOpt_none]
  refine ⟨hex, ?_⟩
  have hins : rowInsertable (mkDocument b gid) = false := by
    unfold rowInsertable mkDocument
    simp [h]
  unfold create_document save
  rw [hex, hins]
  rfl

/-- C10 witness: `c10_null_pini_rejected` at a concrete body and
store. -/
theorem c10_witness :
    bodyNull.pini = none ∧
    exist_pini bodyNull.pini [baseDoc] = false ∧
    create_document bodyNull 8 [baseDoc] = Except.error "IntegrityError" :=
  ⟨rfl, (c10_null_pini_rejected bodyNull 8 [baseDoc] rfl).1,
   (c10_null_pini_rejected bodyNull 8 [baseDoc] rfl).2⟩

/-- C10 counterexample: a create request with a null `pini` does not
insert a new row — the flush fails with `IntegrityError` — so the
claim's "a new row is always inserted" is false at this input. -/
theorem c10_counterexample :
    create_document bodyNull 8 [baseDoc] = Except.error "IntegrityError" := by
  rfl
